import Mathlib

/-! Walter: the rotary encoder of the BotCortex.

A shallow embedding of `code/BotCortex/RotaryEncoder.cpp` and the properties of its
signal conditioning, calibration check and I2C address negotiation.

Conventions of the embedding

* `float` values are elements of an arbitrary linearly ordered field `α` (exact arithmetic;
  `ℚ` for evaluation, `ℝ` as a special case).  The statements about this embedding are
  statements of exact arithmetic.  The rounding of `float` is modelled separately for the
  arithmetic of `fetchSample` (`fetchSampleF32`).
* `uint8_t` values are natural numbers reduced `% 256` where the source stores them in a
  `uint8_t`; `int` expressions are exact.
* The sensor library (`AMS_AS5048B`), `Wire` and the GPIO pins are external to
  `RotaryEncoder.cpp`.  What they return is an input of the embedded function, what is sent
  to them is recorded as a list of `BusOp`.  Log output is left out.
* The constants and the small accessors declared in `RotaryEncoder.h` and the other headers
  are parameters (`Constants`, `SetupData`).
-/

namespace Walter

/-! ## Data model -/

/-- The unsigned integer type of the member `failedReadingCounter`; it is declared in
`RotaryEncoder.h`.  `bits` is its width.  `promotes` says that its rank is below `int`, so that
`failedReadingCounter+1` is computed in `int` without wrapping and only the store back into the
member reduces the value; otherwise the addition itself wraps. -/
structure CounterType where
  bits : Nat
  promotes : Bool
  deriving DecidableEq, Repr

/-- The preprocessor constants used by `RotaryEncoder.cpp` together with the type of the
failure counter; their definitions are in headers. -/
structure Constants (α : Type) where
  ENCODER_FILTER_RESPONSE_TIME : Nat
  ENCODER_SAMPLE_RATE : Nat
  ENCODER_CHECK_MAX_VARIANCE : α
  ENCODER_CHECK_NO_OF_SAMPLES : Nat
  I2C_ADDRESS_ADDON : Nat
  counterType : CounterType

/-- The result of one `sensor.angleR(U_DEG, true)`: the angle delivered and the value
`sensor.endTransmissionStatus()` has afterwards. -/
structure SensorRead (α : Type) where
  angle : α
  endTransmissionStatus : Nat

/-- The members of `RotaryEncoder`.  `nullAngle` is `configData->nullAngle`, `angleOffset` is
`actuatorConfig->angleOffset`, `sensorI2CAddress` is the address held by the member `sensor`. -/
structure RotaryEncoder (α : Type) where
  currentSensorAngle : α
  nullAngle : α
  angleOffset : α
  failedReadingCounter : Nat
  communicationWorks : Bool
  passedCheck : Bool
  sensorI2CAddress : Nat

variable {α : Type} [LinearOrderedField α]

/-! ## Signal conditioning -/

/-- The function `RotaryEncoder::getAngle`. -/
def getAngle (e : RotaryEncoder α) : α :=
  let angle := e.currentSensorAngle
  angle - e.angleOffset

/-- The function `RotaryEncoder::setNullAngle`. -/
def setNullAngle (e : RotaryEncoder α) (rawAngle : α) : RotaryEncoder α :=
  { e with nullAngle := rawAngle }

/-- The function `RotaryEncoder::getAngleOffset`. -/
def getAngleOffset (e : RotaryEncoder α) : α := e.angleOffset

/-- The function `RotaryEncoder::getNullAngle`. -/
def getNullAngle (e : RotaryEncoder α) : α := e.nullAngle

/-- The function `RotaryEncoder::getRawSensorAngle`. -/
def getRawSensorAngle (e : RotaryEncoder α) : α := e.currentSensorAngle

/-- The local `nulledRawAngle` of `getNewAngleFromSensor` after its two conditional
corrections (lines 175 to 179). -/
def nulledRawAngle (rawAngle nullAngle : α) : α :=
  let nulled := rawAngle - nullAngle
  let nulled := if nulled > 180 then nulled - 360 else nulled
  let nulled := if nulled < -180 then nulled + 360 else nulled
  nulled

/-- The value of `failedReadingCounter+1` in the arithmetic type of the expression. -/
def counterPlusOne (ct : CounterType) (c : Nat) : Nat :=
  if ct.promotes then c + 1 else (c + 1) % 2 ^ ct.bits

/-- The statement `failedReadingCounter = max(failedReadingCounter, failedReadingCounter+1)`:
the new content of the member. -/
def countFailedReading (ct : CounterType) (c : Nat) : Nat :=
  max c (counterPlusOne ct c) % 2 ^ ct.bits

/-- The function `RotaryEncoder::getNewAngleFromSensor`; `rd` is what the sensor delivers in this call. -/
def getNewAngleFromSensor (k : Constants α) (e : RotaryEncoder α) (rd : SensorRead α) :
    Bool × RotaryEncoder α :=
  let rawAngle := rd.angle
  let nulled := nulledRawAngle rawAngle (getNullAngle e)
  if rd.endTransmissionStatus ≠ 0 then
    (false, { e with
      failedReadingCounter := countFailedReading k.counterType e.failedReadingCounter })
  else
    let e := { e with failedReadingCounter := 0 }
    let reponseTime : α := (k.ENCODER_FILTER_RESPONSE_TIME : α) / 1000
    let complementaryFilter : α := reponseTime / (reponseTime + (k.ENCODER_SAMPLE_RATE : α) / 1000)
    let antiComplementaryFilter : α := 1 - complementaryFilter
    (true, { e with
      currentSensorAngle := antiComplementaryFilter * nulled + complementaryFilter * nulled })

/-- The filter coefficient `responseTime / (responseTime + samplePeriod)` as the source computes
it from the two constants given in milliseconds. -/
def complementaryFilter (k : Constants α) : α :=
  ((k.ENCODER_FILTER_RESPONSE_TIME : α) / 1000) /
    ((k.ENCODER_FILTER_RESPONSE_TIME : α) / 1000 + (k.ENCODER_SAMPLE_RATE : α) / 1000)

/-- The encoder after the calls of `getNewAngleFromSensor` that receive `rds` in this order. -/
def afterReads (k : Constants α) (e : RotaryEncoder α) (rds : List (SensorRead α)) :
    RotaryEncoder α :=
  rds.foldl (fun e rd => (getNewAngleFromSensor k e rd).2) e

/-! ## Calibration check -/

/-- What `fetchSample` hands back: the return value, the array `sample`, the references `avr`
and `variance`, and the encoder afterwards. -/
structure FetchResult (α : Type) where
  ok : Bool
  sample : List α
  avr : α
  variance : α
  encoder : RotaryEncoder α

/-- One pass of the first loop of `fetchSample`; `reads check` is what the sensor delivers in
pass `check`. -/
def fetchSampleStep (k : Constants α) (reads : Nat → SensorRead α)
    (st : RotaryEncoder α × List α × α) (check : Nat) : RotaryEncoder α × List α × α :=
  let e := (getNewAngleFromSensor k st.1 (reads check)).2
  let x := getRawSensorAngle e
  (e, st.2.1 ++ [x], st.2.2 + x)

/-- One pass of the second loop of `fetchSample`. -/
def varianceStep (avr : α) (variance : α) (x : α) : α :=
  let d := x - avr
  variance + d * d

/-- The function `RotaryEncoder::fetchSample(uint8_t no, float sample[], float& avr,
float& variance)`; `no` is below 256. -/
def fetchSample (k : Constants α) (no : Nat) (reads : Nat → SensorRead α)
    (e : RotaryEncoder α) : FetchResult α :=
  let st := (List.range no).foldl (fetchSampleStep k reads) (e, [], 0)
  let sample := st.2.1
  let avr := st.2.2 / (no : α)
  let variance := sample.foldl (varianceStep avr) 0
  let variance := variance / (no : α)
  { ok := decide (variance ≤ k.ENCODER_CHECK_MAX_VARIANCE)
    sample := sample
    avr := avr
    variance := variance
    encoder := st.1 }

/-- The function `RotaryEncoder::checkEncoderVariance`: the returned variance and the encoder afterwards. -/
def checkEncoderVariance (k : Constants α) (reads : Nat → SensorRead α)
    (e : RotaryEncoder α) : α × RotaryEncoder α :=
  let r := fetchSample k (k.ENCODER_CHECK_NO_OF_SAMPLES % 256) reads e
  (r.variance, { r.encoder with passedCheck := r.ok })

/-- The arithmetic mean of a batch, as the specification words it. -/
def specMean (xs : List α) : α := xs.sum / (xs.length : α)

/-- The population variance of a batch, as the specification words it: the sum of the squared
deviations from the arithmetic mean, divided by the number of readings. -/
def specVariance (xs : List α) : α :=
  (xs.map (fun x => (x - specMean xs) ^ 2)).sum / (xs.length : α)

/-! ## Setup and I2C address negotiation -/

/-- The accessors of `RotaryEncoder` that `setup` consults; they are defined in
`RotaryEncoder.h` on top of `setupData`.  `i2CAddress after` returns a `uint8_t`. -/
structure SetupData where
  doProgI2CAddress : Bool
  i2CAddress : Bool → Nat
  isClockwise : Bool

/-- The two messages `setup` passes to `logFatal`: "new I2C address wrong" (line 96) and
"i2c AddrW failed" (line 116). -/
inductive Fatal where
  | newI2CAddressWrong
  | i2cAddrWFailed
  deriving DecidableEq, Repr

/-- What `setup` sends to the bus, the sensor library and the pins, in program order.
`wireProbe a` is `Wire.beginTransmission(a)` followed by `Wire.endTransmission()`. -/
inductive BusOp where
  | wireProbe (addr : Nat)
  | setI2CAddress (addr : Nat)
  | sensorBegin
  | switchConflictingSensor (powerOn : Bool)
  | setClockWise (cw : Bool)
  | angleR
  | addressRegR
  | addressRegW (regVal : Nat)
  | logFatal (f : Fatal)
  | delay (ms : Nat)
  deriving DecidableEq, Repr

/-- What the bus and the sensor answer during one run of `setup`, one field per place of call:
`probeNew` is the result of `Wire.endTransmission()` in line 67, `angleCheck` the reading of
line 87, `addressRegOld` and `addressRegCheck` the results of `sensor.addressRegR()` in lines
92 and 114, `probeFinal` the result of `Wire.endTransmission()` in line 129 and `angleFinal`
the reading of line 141. -/
structure SetupBus (α : Type) where
  probeNew : Nat
  angleCheck : SensorRead α
  addressRegOld : Nat
  addressRegCheck : Nat
  probeFinal : Nat
  angleFinal : SensorRead α

/-- One run of `setup`: the encoder afterwards, what was sent, and the fatal error if one
ended the run. -/
structure SetupRun (α : Type) where
  encoder : RotaryEncoder α
  ops : List BusOp
  fatal : Option Fatal

/-- Line 51: `uint8_t proggedI2CAddr = i2cAddress + (I2C_ADDRESS_ADDON<<2)`. -/
def proggedI2CAddr (i2cAddress addon : Nat) : Nat :=
  (i2cAddress + (addon <<< 2)) % 256

/-- Line 94: `uint8_t newi2cAddress = ((i2cAddressReg+I2C_ADDRESS_ADDON) ^ (1<<4))<< 2`. -/
def newi2cAddress (i2cAddressReg addon : Nat) : Nat :=
  (((i2cAddressReg + addon) ^^^ (1 <<< 4)) <<< 2) % 256

/-- Lines 64 to 80 of `setup`: the value of `doProgI2CAddr` afterwards, the encoder and what
was sent. -/
def setupConnect (doProgI2CAddr : Bool) (i2cAddress progged : Nat) (probeNew : Nat)
    (e : RotaryEncoder α) : Bool × RotaryEncoder α × List BusOp :=
  if doProgI2CAddr then
    if probeNew = 0 then
      (false, { e with sensorI2CAddress := progged },
        [.wireProbe progged, .setI2CAddress progged, .sensorBegin,
          .switchConflictingSensor true])
    else
      (true, e, [.wireProbe progged])
  else
    (false, { e with sensorI2CAddress := i2cAddress },
      [.setI2CAddress i2cAddress, .sensorBegin])

/-- Modelled from the spec: `logFatal` is declared in `utilities.h` and its definition is not
among the sources.  The specification says of the two places where `setup` calls it that the
error is fatal and unrecoverable and that "a fatal address-verification mismatch halts the
system".  A call of `logFatal` therefore ends the run: the operation is recorded, the error is
kept, and nothing after the call is executed. -/
def logFatal (f : Fatal) (e : RotaryEncoder α) (ops : List BusOp) : SetupRun α :=
  { encoder := e, ops := ops ++ [.logFatal f], fatal := some f }

/-- Lines 126 to 146 of `setup`: the final probe and the first reading. -/
def setupComCheck (sd : SetupData) (bus : SetupBus α) (e : RotaryEncoder α)
    (ops : List BusOp) : SetupRun α :=
  let e := { e with communicationWorks := false }
  let ops := ops ++ [.wireProbe (sd.i2CAddress true % 256)]
  let error := bus.probeFinal
  let e := { e with communicationWorks := decide (error = 0) }
  let e := { e with currentSensorAngle := 0 }
  if e.communicationWorks then
    { encoder := { e with currentSensorAngle := bus.angleFinal.angle },
      ops := ops ++ [.angleR], fatal := none }
  else
    { encoder := e, ops := ops, fatal := none }

/-- Lines 90 to 146 of `setup` when `doProgI2CAddr` is still true in line 90. -/
def setupReprogram (k : Constants α) (sd : SetupData) (progged : Nat) (bus : SetupBus α)
    (e : RotaryEncoder α) (ops : List BusOp) : SetupRun α :=
  let i2cAddressReg := bus.addressRegOld % 256
  let ops := ops ++ [.addressRegR]
  let newAddr := newi2cAddress i2cAddressReg k.I2C_ADDRESS_ADDON
  if newAddr ≠ progged then
    logFatal .newI2CAddressWrong e ops
  else
    let ops := ops ++ [.addressRegW (i2cAddressReg + k.I2C_ADDRESS_ADDON)]
    let e := { e with sensorI2CAddress := newAddr }
    let ops := ops ++ [.setI2CAddress newAddr, .sensorBegin]
    let i2cAddressRegCheck := bus.addressRegCheck % 256
    let ops := ops ++ [.addressRegR]
    if i2cAddressRegCheck ≠ i2cAddressReg + k.I2C_ADDRESS_ADDON then
      logFatal .i2cAddrWFailed e ops
    else
      let ops := ops ++ [.switchConflictingSensor true, .delay 20]
      setupComCheck sd bus e ops

/-- The function `RotaryEncoder::setup`.  `angleOffset` and `nullAngle` are the contents of
the records behind `pActuatorConfig` and `pConfigData`; the log output is left out. -/
def setup (k : Constants α) (sd : SetupData) (angleOffset nullAngle : α) (bus : SetupBus α)
    (e : RotaryEncoder α) : SetupRun α :=
  let e := { e with nullAngle := nullAngle, angleOffset := angleOffset }
  let e := { e with passedCheck := false }
  let doProgI2CAddr := sd.doProgI2CAddress
  let i2cAddress := sd.i2CAddress false % 256
  let progged := proggedI2CAddr i2cAddress k.I2C_ADDRESS_ADDON
  let c := setupConnect doProgI2CAddr i2cAddress progged bus.probeNew e
  let doProgI2CAddr := c.1
  let e := c.2.1
  let ops := c.2.2 ++ [.setClockWise sd.isClockwise]
  let e := { e with currentSensorAngle := bus.angleCheck.angle }
  let ops := ops ++ [.angleR]
  if doProgI2CAddr then
    setupReprogram k sd progged bus e ops
  else
    setupComCheck sd bus e ops

/-- The register writes among the operations of a run. -/
def addressRegWrites (ops : List BusOp) : List Nat :=
  ops.filterMap (fun op => match op with
    | .addressRegW v => some v
    | _ => none)

/-! ## The arithmetic of `fetchSample` in binary32

The embedding above computes in an exact field.  The source computes in `float`, which is
IEEE 754 binary32 on the boards the BotCortex runs on: every addition, subtraction,
multiplication and division delivers the exact result rounded to the nearest binary32 number,
ties to the even mantissa.  The definitions of this section follow lines 202 to 222 with that
rounding.  A finite `float` is a binary number `m * 2 ^ e`; `none` stands for the infinities
and NaN.  Everything is computed with integers. -/

/-- A binary number `m * 2 ^ e`. -/
structure Binary where
  m : Int
  e : Int
  deriving DecidableEq, Repr

/-- The rational value of a binary number. -/
def Binary.toRat (d : Binary) : ℚ := (d.m : ℚ) * (2 : ℚ) ^ d.e

/-- The exact sum of two binary numbers. -/
def Binary.add (x y : Binary) : Binary :=
  let e := min x.e y.e
  { m := x.m * 2 ^ (x.e - e).toNat + y.m * 2 ^ (y.e - e).toNat, e := e }

/-- The exact difference of two binary numbers. -/
def Binary.sub (x y : Binary) : Binary :=
  let e := min x.e y.e
  { m := x.m * 2 ^ (x.e - e).toNat - y.m * 2 ^ (y.e - e).toNat, e := e }

/-- The exact product of two binary numbers. -/
def Binary.mul (x y : Binary) : Binary :=
  { m := x.m * y.m, e := x.e + y.e }

/-- The comparison `x <= y` of two binary numbers. -/
def Binary.le (x y : Binary) : Bool :=
  let e := min x.e y.e
  decide (x.m * 2 ^ (x.e - e).toNat ≤ y.m * 2 ^ (y.e - e).toNat)

/-- The number of halvings that bring `n` below 2, with `fuel` steps at most. -/
def log2Fuel : Nat → Nat → Nat
  | 0, _ => 0
  | fuel + 1, n => if n < 2 then 0 else log2Fuel fuel (n / 2) + 1

/-- The position of the leading bit of `n`: `2 ^ log2 n ≤ n < 2 ^ (log2 n + 1)` for `n ≥ 1`. -/
def log2 (n : Nat) : Nat := log2Fuel n n

/-- The exponent `e` with `2 ^ e ≤ a / b < 2 ^ (e + 1)`, for positive `a` and `b`. -/
def floorLog2 (a b : Nat) : Int :=
  let e0 : Int := (log2 a : Int) - (log2 b : Int)
  if b * 2 ^ e0.toNat ≤ a * 2 ^ (-e0).toNat then e0 else e0 - 1

/-- The integer nearest to `n / d`, the even one of the two when `n / d` lies half way. -/
def roundNearestEven (n d : Nat) : Nat :=
  let q := n / d
  let r := n % d
  if 2 * r < d then q else if d < 2 * r then q + 1 else if q % 2 = 0 then q else q + 1

/-- The binary32 number nearest to `a / b` (with a minus sign if `negative`), for `b > 0`:
24 bits of mantissa, the exponent of the last bit not below -149, and `none` (infinity) when
the rounded magnitude reaches `2 ^ 128`. -/
def roundF32 (negative : Bool) (a b : Nat) : Option Binary :=
  if a = 0 then some { m := 0, e := 0 }
  else
    let e := max (floorLog2 a b) (-126)
    let u := e - 23
    let m := roundNearestEven (a * 2 ^ (-u).toNat) (b * 2 ^ u.toNat)
    if 2 ^ 128 ≤ m * 2 ^ u.toNat then none
    else some { m := if negative then -(m : Int) else (m : Int), e := u }

/-- The binary32 number nearest to a binary number. -/
def roundBinary (x : Binary) : Option Binary :=
  roundF32 (decide (x.m < 0)) (x.m.natAbs * 2 ^ x.e.toNat) (2 ^ (-x.e).toNat)

/-- The `float` addition. -/
def f32add (a b : Option Binary) : Option Binary :=
  a.bind fun x => b.bind fun y => roundBinary (x.add y)

/-- The `float` subtraction. -/
def f32sub (a b : Option Binary) : Option Binary :=
  a.bind fun x => b.bind fun y => roundBinary (x.sub y)

/-- The `float` multiplication. -/
def f32mul (a b : Option Binary) : Option Binary :=
  a.bind fun x => b.bind fun y => roundBinary (x.mul y)

/-- The `float` division by `float(n)` for a count `n` below 256; a division by 0 gives an
infinity or NaN. -/
def f32divNat (a : Option Binary) (n : Nat) : Option Binary :=
  if n = 0 then none
  else a.bind fun x =>
    roundF32 (decide (x.m < 0)) (x.m.natAbs * 2 ^ x.e.toNat) (n * 2 ^ (-x.e).toNat)

/-- Lines 202 to 222 of `fetchSample` in binary32: the return value, `avr` and `variance`.
`x check` is the `float` that `getRawSensorAngle()` returns in pass `check` of the first loop,
`maxVariance` is the value of `ENCODER_CHECK_MAX_VARIANCE`.  The comparison of line 222 is
false for an infinity and for NaN. -/
def fetchSampleF32 (no : Nat) (x : Nat → Option Binary) (maxVariance : Binary) :
    Bool × Option Binary × Option Binary :=
  let avr := (List.range no).foldl (fun avr check => f32add avr (x check)) (some ⟨0, 0⟩)
  let avr := f32divNat avr no
  let variance := (List.range no).foldl (fun variance check =>
    let d := f32sub (x check) avr
    f32add variance (f32mul d d)) (some ⟨0, 0⟩)
  let variance := f32divNat variance no
  (match variance with
    | some v => v.le maxVariance
    | none => false, avr, variance)

/-! ## Concrete inputs used for evaluation -/

/-- The `float` nearest to 123.456, which is `16181625 * 2 ^ -17`. -/
def demoReading : Binary := { m := 16181625, e := -17 }

/-- The threshold `2 ^ -40`. -/
def demoTinyThreshold : Binary := { m := 1, e := -40 }

/-- Constants for evaluation: response time 20 ms, sample period 20 ms, maximum variance 1,
five samples per check, address offset 4, an 8 bit failure counter. -/
def demoConstants : Constants ℚ :=
  { ENCODER_FILTER_RESPONSE_TIME := 20
    ENCODER_SAMPLE_RATE := 20
    ENCODER_CHECK_MAX_VARIANCE := 1
    ENCODER_CHECK_NO_OF_SAMPLES := 5
    I2C_ADDRESS_ADDON := 4
    counterType := { bits := 8, promotes := true } }

/-- The constants of `demoConstants` with a 32 bit failure counter of the rank of `int`. -/
def demoConstantsWide : Constants ℚ :=
  { demoConstants with counterType := { bits := 32, promotes := false } }

/-- An encoder as the constructor leaves it: everything zero. -/
def demoEncoder : RotaryEncoder ℚ :=
  { currentSensorAngle := 0
    nullAngle := 0
    angleOffset := 0
    failedReadingCounter := 0
    communicationWorks := false
    passedCheck := false
    sensorI2CAddress := 0 }


/-- Setup data of a sensor that keeps its address 64. -/
def demoSetupData : SetupData :=
  { doProgI2CAddress := false
    i2CAddress := fun _ => 64
    isClockwise := true }

/-- Setup data of the addon sensor: address 76 before and 92 after reprogramming. -/
def demoAddonSetupData : SetupData :=
  { doProgI2CAddress := true
    i2CAddress := fun after => if after then 92 else 76
    isClockwise := true }

/-- A bus on which nothing answers at the new address yet, the address register holds 3 and
reads back 7 after the write, the final probe succeeds and the sensor reads 270 degrees. -/
def demoBus : SetupBus ℚ :=
  { probeNew := 2
    angleCheck := ⟨270, 0⟩
    addressRegOld := 3
    addressRegCheck := 7
    probeFinal := 0
    angleFinal := ⟨270, 0⟩ }

/-- The bus of `demoBus` after the device has moved: it answers at the new address. -/
def demoBusMoved : SetupBus ℚ :=
  { demoBus with probeNew := 0, addressRegOld := 7 }

/-- The bus of `demoBus` with a register that still reads 3 after the write. -/
def demoBusStuck : SetupBus ℚ :=
  { demoBus with addressRegCheck := 3 }

end Walter

/-! ## Properties of the signal conditioning -/

namespace Walter

variable {α : Type} [LinearOrderedField α]

/-- The wrapped value differs from `rawAngle - nullAngle` by a whole number of turns. -/
lemma nulledRawAngle_congr (r n : α) :
    ∃ z : ℤ, nulledRawAngle r n = r - n + 360 * (z : α) := by
  unfold nulledRawAngle
  by_cases h1 : r - n > 180
  · by_cases h2 : r - n - 360 < -180
    · exact ⟨0, by simp [h1, h2]⟩
    · exact ⟨-1, by simp [h1, h2]; ring⟩
  · by_cases h2 : r - n < -180
    · exact ⟨1, by simp [h1, h2]⟩
    · exact ⟨0, by simp [h1, h2]⟩

/-- For a difference strictly between -360 and 360 the wrapped value is in `[-180, 180]`. -/
lemma nulledRawAngle_range (r n : α) (hr0 : 0 ≤ r) (hr : r < 360) (hn0 : 0 ≤ n)
    (hn : n < 360) : -180 ≤ nulledRawAngle r n ∧ nulledRawAngle r n ≤ 180 := by
  unfold nulledRawAngle
  by_cases h1 : r - n > 180
  · by_cases h2 : r - n - 360 < -180
    · simp only [h1, h2, if_true]; constructor <;> linarith
    · simp only [h1, h2, if_true, if_false]; constructor <;> linarith
  · by_cases h2 : r - n < -180
    · simp only [h1, h2, if_true, if_false]; constructor <;> linarith
    · simp only [h1, h2, if_false]; constructor <;> linarith

/-- The lower bound is attained only by a difference of exactly -180. -/
lemma nulledRawAngle_eq_neg (r n : α) (hr0 : 0 ≤ r) (hn : n < 360) :
    nulledRawAngle r n = -180 ↔ r - n = -180 := by
  unfold nulledRawAngle
  by_cases h1 : r - n > 180
  · by_cases h2 : r - n - 360 < -180
    · simp only [h1, h2, if_true]; constructor <;> intro h <;> linarith
    · simp only [h1, h2, if_true, if_false]; constructor <;> intro h <;> linarith
  · by_cases h2 : r - n < -180
    · simp only [h1, h2, if_true, if_false]; constructor <;> intro h <;> linarith
    · simp only [h1, h2, if_false]

/-- A call whose transaction succeeded stores the wrapped reading itself: the two filter
terms of line 197 add up to it, whatever the coefficient and the previous angle are. -/
lemma getNewAngleFromSensor_success (k : Constants α) (e : RotaryEncoder α)
    (rd : SensorRead α) (h : rd.endTransmissionStatus = 0) :
    getNewAngleFromSensor k e rd =
      (true, { e with
        failedReadingCounter := 0
        currentSensorAngle := nulledRawAngle rd.angle e.nullAngle }) := by
  simp only [getNewAngleFromSensor, h, ne_eq, not_true_eq_false, if_false, getNullAngle]
  congr 2
  ring

/-- A call whose transaction failed only touches the failure counter. -/
lemma getNewAngleFromSensor_failure (k : Constants α) (e : RotaryEncoder α)
    (rd : SensorRead α) (h : rd.endTransmissionStatus ≠ 0) :
    getNewAngleFromSensor k e rd =
      (false, { e with
        failedReadingCounter := countFailedReading k.counterType e.failedReadingCounter }) := by
  simp [getNewAngleFromSensor, h]

/-- No call of `getNewAngleFromSensor` changes the null angle. -/
lemma getNewAngleFromSensor_nullAngle (k : Constants α) (e : RotaryEncoder α)
    (rd : SensorRead α) : (getNewAngleFromSensor k e rd).2.nullAngle = e.nullAngle := by
  by_cases h : rd.endTransmissionStatus = 0
  · rw [getNewAngleFromSensor_success k e rd h]
  · rw [getNewAngleFromSensor_failure k e rd h]

/-- Below the maximum of the counter type the counter statement adds one. -/
lemma countFailedReading_lt (ct : CounterType) (c : Nat) (h : c + 1 < 2 ^ ct.bits) :
    countFailedReading ct c = c + 1 := by
  unfold countFailedReading counterPlusOne
  split
  · rw [Nat.max_eq_right (Nat.le_succ c), Nat.mod_eq_of_lt h]
  · rw [Nat.mod_eq_of_lt h, Nat.max_eq_right (Nat.le_succ c), Nat.mod_eq_of_lt h]

/-- C1, as amended: for every raw angle and null angle in `[0, 360)` the wrapped value that a
successful `getNewAngleFromSensor` computes and stores differs from `raw - null` by a whole
multiple of 360 and lies in the closed interval `[-180, 180]`; it is -180 exactly when
`raw - null` is -180.  Raw 10 with null 350 gives 20, raw 5 with null 10 gives -5. -/
theorem C1_wrap_closed_interval (r n : α) (hr0 : 0 ≤ r) (hr : r < 360) (hn0 : 0 ≤ n)
    (hn : n < 360) :
    (∀ (k : Constants α) (e : RotaryEncoder α), e.nullAngle = n →
        (getNewAngleFromSensor k e ⟨r, 0⟩).2.currentSensorAngle = nulledRawAngle r n) ∧
      (∃ z : ℤ, nulledRawAngle r n = r - n + 360 * (z : α)) ∧
      -180 ≤ nulledRawAngle r n ∧ nulledRawAngle r n ≤ 180 ∧
      (nulledRawAngle r n = -180 ↔ r - n = -180) ∧
      nulledRawAngle (10 : α) 350 = 20 ∧ nulledRawAngle (5 : α) 10 = -5 := by
  refine ⟨?_, nulledRawAngle_congr r n, (nulledRawAngle_range r n hr0 hr hn0 hn).1,
    (nulledRawAngle_range r n hr0 hr hn0 hn).2, nulledRawAngle_eq_neg r n hr0 hn, ?_, ?_⟩
  · intro k e he
    rw [getNewAngleFromSensor_success k e ⟨r, 0⟩ rfl, ← he]
  · simp [nulledRawAngle]; norm_num
  · simp [nulledRawAngle]; norm_num

/-- C1, evaluated: raw angle 90 and null angle 270 are wrapped to -180. -/
theorem C1_wrap_closed_interval_witness :
    (∀ (k : Constants ℚ) (e : RotaryEncoder ℚ), e.nullAngle = 270 →
        (getNewAngleFromSensor k e ⟨90, 0⟩).2.currentSensorAngle = nulledRawAngle 90 270) ∧
      (∃ z : ℤ, nulledRawAngle (90 : ℚ) 270 = 90 - 270 + 360 * (z : ℚ)) ∧
      -180 ≤ nulledRawAngle (90 : ℚ) 270 ∧ nulledRawAngle (90 : ℚ) 270 ≤ 180 ∧
      (nulledRawAngle (90 : ℚ) 270 = -180 ↔ (90 : ℚ) - 270 = -180) ∧
      nulledRawAngle (10 : ℚ) 350 = 20 ∧ nulledRawAngle (5 : ℚ) 10 = -5 :=
  C1_wrap_closed_interval 90 270 (by norm_num) (by norm_num) (by norm_num) (by norm_num)

/-- C1, the claim as stated fails: raw angle 0 and null angle 180 are both in `[0, 360)`, the
wrapped value that the call stores is -180, which is outside the half-open interval
`(-180, 180]`. -/
theorem C1_wrap_open_end_fails :
    (0 : ℚ) ≤ 0 ∧ (0 : ℚ) < 360 ∧ (0 : ℚ) ≤ 180 ∧ (180 : ℚ) < 360 ∧
      (getNewAngleFromSensor demoConstants { demoEncoder with nullAngle := 180 }
        ⟨0, 0⟩).2.currentSensorAngle = -180 ∧
      nulledRawAngle (0 : ℚ) 180 = -180 ∧
      ¬ (-180 < nulledRawAngle (0 : ℚ) 180 ∧ nulledRawAngle (0 : ℚ) 180 ≤ 180) := by
  have h : nulledRawAngle (0 : ℚ) 180 = -180 := by
    simp [nulledRawAngle]; norm_num
  refine ⟨le_refl _, by norm_num, by norm_num, by norm_num, ?_, h, ?_⟩
  · rw [getNewAngleFromSensor_success _ _ _ rfl]
    exact h
  · rw [h]
    norm_num

/-- C2, the code at the failing input: with response time and sample period both 20 ms the
coefficient is 1/2; from the filtered angle 0 a successful reading of 10 (null angle 0) leads
to the filtered angle 10, while `c*previous + (1-c)*raw` is 5. -/
theorem C2_filter_drops_previous :
    complementaryFilter demoConstants = 1 / 2 ∧
      demoEncoder.currentSensorAngle = 0 ∧
      nulledRawAngle (10 : ℚ) demoEncoder.nullAngle = 10 ∧
      (getNewAngleFromSensor demoConstants demoEncoder ⟨10, 0⟩).1 = true ∧
      (getNewAngleFromSensor demoConstants demoEncoder ⟨10, 0⟩).2.currentSensorAngle = 10 ∧
      complementaryFilter demoConstants * demoEncoder.currentSensorAngle +
        (1 - complementaryFilter demoConstants) * nulledRawAngle (10 : ℚ) demoEncoder.nullAngle
        = 5 := by
  have hc : complementaryFilter demoConstants = 1 / 2 := by
    simp [complementaryFilter, demoConstants]; norm_num
  have hn : nulledRawAngle (10 : ℚ) demoEncoder.nullAngle = 10 := by
    simp [nulledRawAngle, demoEncoder]; norm_num
  have hg := getNewAngleFromSensor_success demoConstants demoEncoder ⟨10, 0⟩ rfl
  refine ⟨hc, rfl, hn, ?_, ?_, ?_⟩
  · rw [hg]
  · rw [hg]; exact hn
  · rw [hc, hn]; simp [demoEncoder]; norm_num

/-- C3, as amended: when the transaction of `getNewAngleFromSensor` fails, the call returns
false, `currentSensorAngle` is unchanged, so `getAngle` and `getRawSensorAngle` return what
they returned before, and `failedReadingCounter` is its previous value plus 1, provided the
previous value is below the maximum of the counter type. -/
theorem C3_failed_read (k : Constants α) (e : RotaryEncoder α) (rd : SensorRead α)
    (hfail : rd.endTransmissionStatus ≠ 0)
    (hroom : e.failedReadingCounter + 1 < 2 ^ k.counterType.bits) :
    (getNewAngleFromSensor k e rd).1 = false ∧
      (getNewAngleFromSensor k e rd).2.currentSensorAngle = e.currentSensorAngle ∧
      getAngle (getNewAngleFromSensor k e rd).2 = getAngle e ∧
      getRawSensorAngle (getNewAngleFromSensor k e rd).2 = getRawSensorAngle e ∧
      (getNewAngleFromSensor k e rd).2.failedReadingCounter = e.failedReadingCounter + 1 := by
  rw [getNewAngleFromSensor_failure k e rd hfail]
  refine ⟨rfl, rfl, rfl, rfl, ?_⟩
  exact countFailedReading_lt k.counterType e.failedReadingCounter hroom

/-- C3, evaluated: a failed read on the fresh encoder with an 8 bit counter. -/
theorem C3_failed_read_witness :
    (getNewAngleFromSensor demoConstants demoEncoder ⟨33, 2⟩).1 = false ∧
      (getNewAngleFromSensor demoConstants demoEncoder ⟨33, 2⟩).2.currentSensorAngle
        = demoEncoder.currentSensorAngle ∧
      getAngle (getNewAngleFromSensor demoConstants demoEncoder ⟨33, 2⟩).2
        = getAngle demoEncoder ∧
      getRawSensorAngle (getNewAngleFromSensor demoConstants demoEncoder ⟨33, 2⟩).2
        = getRawSensorAngle demoEncoder ∧
      (getNewAngleFromSensor demoConstants demoEncoder ⟨33, 2⟩).2.failedReadingCounter
        = demoEncoder.failedReadingCounter + 1 :=
  C3_failed_read demoConstants demoEncoder ⟨33, 2⟩ (by decide) (by decide)

/-- C3, the claim as stated fails at the maximum of the counter type: an 8 bit counter at 255
is 0 after a failed read, a 32 bit counter of the rank of `int` at 4294967295 stays there;
neither is the previous value plus 1. -/
theorem C3_counter_at_maximum :
    (getNewAngleFromSensor demoConstants
        { demoEncoder with failedReadingCounter := 255 } ⟨0, 1⟩).2.failedReadingCounter = 0 ∧
      (getNewAngleFromSensor demoConstants
        { demoEncoder with failedReadingCounter := 255 } ⟨0, 1⟩).2.failedReadingCounter
        ≠ 255 + 1 ∧
      (getNewAngleFromSensor demoConstantsWide
        { demoEncoder with failedReadingCounter := 4294967295 } ⟨0, 1⟩).2.failedReadingCounter
        = 4294967295 ∧
      (getNewAngleFromSensor demoConstantsWide
        { demoEncoder with failedReadingCounter := 4294967295 } ⟨0, 1⟩).2.failedReadingCounter
        ≠ 4294967295 + 1 := by
  simp [getNewAngleFromSensor, demoConstants, demoConstantsWide, demoEncoder,
    countFailedReading, counterPlusOne]

end Walter

/-! ## The filtered angle over sequences of calls -/

namespace Walter

variable {α : Type} [LinearOrderedField α]

lemma afterReads_cons (k : Constants α) (e : RotaryEncoder α) (rd : SensorRead α)
    (rds : List (SensorRead α)) :
    afterReads k e (rd :: rds) = afterReads k (getNewAngleFromSensor k e rd).2 rds := rfl

/-- The null angle is the same after any sequence of calls. -/
lemma afterReads_nullAngle (k : Constants α) (rds : List (SensorRead α)) :
    ∀ e : RotaryEncoder α, (afterReads k e rds).nullAngle = e.nullAngle := by
  induction rds with
  | nil => intro e; rfl
  | cons rd t ih =>
    intro e
    rw [afterReads_cons, ih, getNewAngleFromSensor_nullAngle]

/-- Calls that all fail leave the filtered angle where it was. -/
lemma afterReads_all_failed (k : Constants α) (rds : List (SensorRead α)) :
    ∀ e : RotaryEncoder α, (∀ rd ∈ rds, rd.endTransmissionStatus ≠ 0) →
      (afterReads k e rds).currentSensorAngle = e.currentSensorAngle := by
  induction rds with
  | nil => intro e _; rfl
  | cons rd t ih =>
    intro e h
    rw [afterReads_cons, ih _ (fun r hr => h r (List.mem_cons_of_mem _ hr)),
      getNewAngleFromSensor_failure k e rd (h rd (List.mem_cons_self _ _))]

/-- One call keeps the filtered angle in `[-180, 180]` when the reading and the null angle
are in `[0, 360)`. -/
lemma getNewAngleFromSensor_keeps_range (k : Constants α) (e : RotaryEncoder α)
    (rd : SensorRead α) (hn0 : 0 ≤ e.nullAngle) (hn : e.nullAngle < 360)
    (hr0 : 0 ≤ rd.angle) (hr : rd.angle < 360)
    (he : -180 ≤ e.currentSensorAngle ∧ e.currentSensorAngle ≤ 180) :
    -180 ≤ (getNewAngleFromSensor k e rd).2.currentSensorAngle ∧
      (getNewAngleFromSensor k e rd).2.currentSensorAngle ≤ 180 := by
  by_cases h : rd.endTransmissionStatus = 0
  · rw [getNewAngleFromSensor_success k e rd h]
    exact nulledRawAngle_range rd.angle e.nullAngle hr0 hr hn0 hn
  · rw [getNewAngleFromSensor_failure k e rd h]
    exact he

/-- A filtered angle in `[-180, 180]` stays there over any sequence of calls. -/
lemma afterReads_keeps_range (k : Constants α) (rds : List (SensorRead α)) :
    ∀ e : RotaryEncoder α, 0 ≤ e.nullAngle → e.nullAngle < 360 →
      (∀ rd ∈ rds, 0 ≤ rd.angle ∧ rd.angle < 360) →
      (-180 ≤ e.currentSensorAngle ∧ e.currentSensorAngle ≤ 180) →
      -180 ≤ (afterReads k e rds).currentSensorAngle ∧
        (afterReads k e rds).currentSensorAngle ≤ 180 := by
  induction rds with
  | nil => intro e _ _ _ he; exact he
  | cons rd t ih =>
    intro e hn0 hn hrds he
    rw [afterReads_cons]
    have hrd := hrds rd (List.mem_cons_self _ _)
    apply ih
    · rw [getNewAngleFromSensor_nullAngle]; exact hn0
    · rw [getNewAngleFromSensor_nullAngle]; exact hn
    · exact fun r hr => hrds r (List.mem_cons_of_mem _ hr)
    · exact getNewAngleFromSensor_keeps_range k e rd hn0 hn hrd.1 hrd.2 he

/-- After a sequence of calls of which at least one succeeded the filtered angle is in
`[-180, 180]`, whatever it was before. -/
lemma afterReads_range_of_success (k : Constants α) (rds : List (SensorRead α)) :
    ∀ e : RotaryEncoder α, 0 ≤ e.nullAngle → e.nullAngle < 360 →
      (∀ rd ∈ rds, 0 ≤ rd.angle ∧ rd.angle < 360) →
      (∃ rd ∈ rds, rd.endTransmissionStatus = 0) →
      -180 ≤ (afterReads k e rds).currentSensorAngle ∧
        (afterReads k e rds).currentSensorAngle ≤ 180 := by
  induction rds with
  | nil =>
    intro e _ _ _ hex
    obtain ⟨rd, hrd, _⟩ := hex
    exact absurd hrd (List.not_mem_nil rd)
  | cons rd t ih =>
    intro e hn0 hn hrds hex
    rw [afterReads_cons]
    have hrd := hrds rd (List.mem_cons_self _ _)
    have hn0' : 0 ≤ (getNewAngleFromSensor k e rd).2.nullAngle := by
      rw [getNewAngleFromSensor_nullAngle]; exact hn0
    have hn' : (getNewAngleFromSensor k e rd).2.nullAngle < 360 := by
      rw [getNewAngleFromSensor_nullAngle]; exact hn
    have ht : ∀ r ∈ t, 0 ≤ r.angle ∧ r.angle < 360 :=
      fun r hr => hrds r (List.mem_cons_of_mem _ hr)
    by_cases h : rd.endTransmissionStatus = 0
    · apply afterReads_keeps_range k t _ hn0' hn' ht
      rw [getNewAngleFromSensor_success k e rd h]
      exact nulledRawAngle_range rd.angle e.nullAngle hrd.1 hrd.2 hn0 hn
    · apply ih _ hn0' hn' ht
      obtain ⟨r, hr, hs⟩ := hex
      rcases List.mem_cons.mp hr with heq | hmem
      · exact absurd (heq ▸ hs) h
      · exact ⟨r, hmem, hs⟩

/-- The null angle after `setup` is the one of the configuration handed in. -/
lemma setup_nullAngle (k : Constants α) (sd : SetupData) (angleOffset nullAngle : α)
    (bus : SetupBus α) (e : RotaryEncoder α) :
    (setup k sd angleOffset nullAngle bus e).encoder.nullAngle = nullAngle := by
  simp only [setup, setupConnect, setupReprogram, setupComCheck, logFatal]
  split_ifs <;> rfl

/-- C9: for every filter coefficient (response time plus sample period positive) and every
state whose filtered angle equals the wrapped input `x`, any number of further successful
calls of `getNewAngleFromSensor` with the same input return true and leave the filtered angle
equal to `x`. -/
theorem C9_filter_constant_input (k : Constants α) (e : RotaryEncoder α) (rd : SensorRead α)
    (x : α) (m : Nat) (_hpos : 0 < k.ENCODER_FILTER_RESPONSE_TIME + k.ENCODER_SAMPLE_RATE)
    (hok : rd.endTransmissionStatus = 0) (hx : nulledRawAngle rd.angle e.nullAngle = x)
    (he : e.currentSensorAngle = x) :
    (afterReads k e (List.replicate m rd)).currentSensorAngle = x ∧
      getRawSensorAngle (afterReads k e (List.replicate m rd)) = x ∧
      (getNewAngleFromSensor k (afterReads k e (List.replicate m rd)) rd).1 = true ∧
      (getNewAngleFromSensor k (afterReads k e (List.replicate m rd)) rd).2.currentSensorAngle
        = x := by
  have key : ∀ (m : Nat) (e : RotaryEncoder α), nulledRawAngle rd.angle e.nullAngle = x →
      e.currentSensorAngle = x →
      (afterReads k e (List.replicate m rd)).currentSensorAngle = x := by
    intro m
    induction m with
    | zero => intro e _ he; exact he
    | succ j ih =>
      intro e hx _
      rw [List.replicate_succ, afterReads_cons]
      apply ih
      · rw [getNewAngleFromSensor_nullAngle]; exact hx
      · rw [getNewAngleFromSensor_success k e rd hok]; exact hx
  refine ⟨key m e hx he, key m e hx he, ?_, ?_⟩
  · rw [getNewAngleFromSensor_success k _ rd hok]
  · rw [getNewAngleFromSensor_success k _ rd hok]
    show nulledRawAngle rd.angle (afterReads k e (List.replicate m rd)).nullAngle = x
    rw [afterReads_nullAngle]; exact hx

/-- C9, evaluated: the filtered angle 10 under three more readings of 10 with null angle 0. -/
theorem C9_filter_constant_input_witness :
    (afterReads demoConstants { demoEncoder with currentSensorAngle := 10 }
        (List.replicate 3 ⟨10, 0⟩)).currentSensorAngle = 10 ∧
      getRawSensorAngle (afterReads demoConstants { demoEncoder with currentSensorAngle := 10 }
        (List.replicate 3 ⟨10, 0⟩)) = 10 ∧
      (getNewAngleFromSensor demoConstants
        (afterReads demoConstants { demoEncoder with currentSensorAngle := 10 }
          (List.replicate 3 ⟨10, 0⟩)) ⟨10, 0⟩).1 = true ∧
      (getNewAngleFromSensor demoConstants
        (afterReads demoConstants { demoEncoder with currentSensorAngle := 10 }
          (List.replicate 3 ⟨10, 0⟩)) ⟨10, 0⟩).2.currentSensorAngle = 10 :=
  C9_filter_constant_input demoConstants { demoEncoder with currentSensorAngle := 10 }
    ⟨10, 0⟩ 10 3 (by decide) rfl
    (by simp [nulledRawAngle, demoEncoder]; norm_num) rfl

/-- C7, as amended: in exact arithmetic (response time plus sample period positive), after
`setup` and any sequence of calls of `getNewAngleFromSensor`, with all raw readings and the
null angle in `[0, 360)`, the angle returned by `getRawSensorAngle` lies in the closed
interval `[-180, 180]` as soon as one of the calls succeeded; as long as every call failed it
is the value `setup` left. -/
theorem C7_range_after_success (k : Constants α) (sd : SetupData) (angleOffset nullAngle : α)
    (bus : SetupBus α) (e : RotaryEncoder α) (rds : List (SensorRead α))
    (_hpos : 0 < k.ENCODER_FILTER_RESPONSE_TIME + k.ENCODER_SAMPLE_RATE)
    (hn0 : 0 ≤ nullAngle) (hn : nullAngle < 360)
    (hrds : ∀ rd ∈ rds, 0 ≤ rd.angle ∧ rd.angle < 360) :
    ((∃ rd ∈ rds, rd.endTransmissionStatus = 0) →
        -180 ≤ getRawSensorAngle (afterReads k (setup k sd angleOffset nullAngle bus e).encoder rds)
        ∧ getRawSensorAngle (afterReads k (setup k sd angleOffset nullAngle bus e).encoder rds)
          ≤ 180) ∧
      ((∀ rd ∈ rds, rd.endTransmissionStatus ≠ 0) →
        getRawSensorAngle (afterReads k (setup k sd angleOffset nullAngle bus e).encoder rds)
          = getRawSensorAngle (setup k sd angleOffset nullAngle bus e).encoder) := by
  constructor
  · intro hex
    apply afterReads_range_of_success k rds _ _ _ hrds hex
    · rw [setup_nullAngle]; exact hn0
    · rw [setup_nullAngle]; exact hn
  · intro hall
    exact afterReads_all_failed k rds _ hall

end Walter

namespace Walter

variable {α : Type} [LinearOrderedField α]

/-- C7, evaluated: after `setup` a successful reading of 200 with null angle 0 leaves -160. -/
theorem C7_range_after_success_witness :
    -180 ≤ getRawSensorAngle (afterReads demoConstants
        (setup demoConstants demoSetupData 0 0 demoBus demoEncoder).encoder [⟨200, 0⟩])
      ∧ getRawSensorAngle (afterReads demoConstants
        (setup demoConstants demoSetupData 0 0 demoBus demoEncoder).encoder [⟨200, 0⟩]) ≤ 180 :=
  (C7_range_after_success demoConstants demoSetupData 0 0 demoBus demoEncoder [⟨200, 0⟩]
    (by decide) (le_refl 0) (by norm_num)
    (by intro rd h; rw [List.mem_singleton] at h; subst h; norm_num)).1
    ⟨⟨200, 0⟩, List.mem_singleton.mpr rfl, rfl⟩

/-- C7, the claim as stated fails twice.  Directly after a `setup` whose final probe succeeds
the filtered angle is the raw reading of line 141, here 270, and a failed call leaves it there.
After `setup` with null angle 180 a successful reading of 0 leaves -180.  Both values are
outside `(-180, 180]`. -/
theorem C7_range_fails :
    getRawSensorAngle (afterReads demoConstants
        (setup demoConstants demoSetupData 0 0 demoBus demoEncoder).encoder []) = 270 ∧
      getRawSensorAngle (afterReads demoConstants
        (setup demoConstants demoSetupData 0 0 demoBus demoEncoder).encoder [⟨15, 1⟩]) = 270 ∧
      ¬ ((270 : ℚ) ≤ 180) ∧
      getRawSensorAngle (afterReads demoConstants
        (setup demoConstants demoSetupData 0 180 demoBus demoEncoder).encoder [⟨0, 0⟩]) = -180 ∧
      ¬ ((-180 : ℚ) < -180) := by
  refine ⟨?_, ?_, by norm_num, ?_, by norm_num⟩
  · simp [getRawSensorAngle, afterReads, setup, setupConnect, setupComCheck, demoSetupData,
      demoBus, demoEncoder]
  · simp [getRawSensorAngle, afterReads, getNewAngleFromSensor, setup, setupConnect,
      setupComCheck, demoSetupData, demoBus, demoEncoder]
  · rw [afterReads, List.foldl_cons, List.foldl_nil, getNewAngleFromSensor_success _ _ _ rfl]
    simp [getRawSensorAngle, setup, setupConnect, setupComCheck, demoSetupData, demoBus,
      demoEncoder, nulledRawAngle]
    norm_num

/-! ## Properties of the calibration check -/

/-- The second loop of `fetchSample` adds up the squared deviations. -/
lemma foldl_varianceStep (avr : α) (xs : List α) :
    ∀ v : α, xs.foldl (varianceStep avr) v = v + (xs.map (fun x => (x - avr) ^ 2)).sum := by
  induction xs with
  | nil => intro v; simp
  | cons x t ih =>
    intro v
    rw [List.foldl_cons, ih, List.map_cons, List.sum_cons]
    simp only [varianceStep]
    ring

/-- The first loop of `fetchSample` after `n` passes: `n` samples, and their sum in `avr`. -/
lemma fetchLoop_sum (k : Constants α) (reads : Nat → SensorRead α) (e : RotaryEncoder α)
    (n : Nat) :
    ((List.range n).foldl (fetchSampleStep k reads) (e, [], 0)).2.1.length = n ∧
      ((List.range n).foldl (fetchSampleStep k reads) (e, [], 0)).2.2 =
        ((List.range n).foldl (fetchSampleStep k reads) (e, [], 0)).2.1.sum := by
  induction n with
  | zero => simp
  | succ j ih =>
    rw [List.range_succ, List.foldl_append, List.foldl_cons, List.foldl_nil]
    simp only [fetchSampleStep, List.length_append, List.length_singleton, List.sum_append,
      List.sum_singleton]
    exact ⟨by rw [ih.1], by rw [ih.2]⟩

/-- The first loop of `fetchSample` when every read fails: the encoder keeps its filtered
angle and every sample is that angle. -/
lemma fetchLoop_all_failed (k : Constants α) (reads : Nat → SensorRead α)
    (e : RotaryEncoder α) (n : Nat) (h : ∀ i, i < n → (reads i).endTransmissionStatus ≠ 0) :
    ((List.range n).foldl (fetchSampleStep k reads) (e, [], 0)).1.currentSensorAngle
        = e.currentSensorAngle ∧
      ((List.range n).foldl (fetchSampleStep k reads) (e, [], 0)).2.1
        = List.replicate n e.currentSensorAngle := by
  induction n with
  | zero => simp
  | succ j ih =>
    have ihj := ih (fun i hi => h i (Nat.lt_succ_of_lt hi))
    rw [List.range_succ, List.foldl_append, List.foldl_cons, List.foldl_nil]
    simp only [fetchSampleStep]
    rw [getNewAngleFromSensor_failure k _ _ (h j (Nat.lt_succ_self j))]
    simp only [getRawSensorAngle]
    refine ⟨ihj.1, ?_⟩
    rw [ihj.1, ihj.2, List.replicate_succ']

/-- What `fetchSample` reports is the mean and the population variance of its samples. -/
lemma fetchSample_stats (k : Constants α) (no : Nat) (reads : Nat → SensorRead α)
    (e : RotaryEncoder α) :
    (fetchSample k no reads e).sample.length = no ∧
      (fetchSample k no reads e).avr = specMean (fetchSample k no reads e).sample ∧
      (fetchSample k no reads e).variance = specVariance (fetchSample k no reads e).sample := by
  have hl := fetchLoop_sum k reads e no
  have hlen : (fetchSample k no reads e).sample.length = no := hl.1
  have havr : (fetchSample k no reads e).avr = specMean (fetchSample k no reads e).sample := by
    show _ / (no : α) = _
    rw [specMean, hlen]
    exact congrArg (· / (no : α)) hl.2
  refine ⟨hlen, havr, ?_⟩
  show (List.foldl (varianceStep (fetchSample k no reads e).avr) 0
    (fetchSample k no reads e).sample) / (no : α) = _
  rw [foldl_varianceStep, zero_add, specVariance, hlen, havr]

/-- Mean and population variance of a batch of identical readings. -/
lemma spec_stats_replicate (n : Nat) (hn : 0 < n) (x : α) :
    specMean (List.replicate n x) = x ∧ specVariance (List.replicate n x) = 0 := by
  have hn' : (n : α) ≠ 0 := Nat.cast_ne_zero.mpr (Nat.pos_iff_ne_zero.mp hn)
  have hm : specMean (List.replicate n x) = x := by
    rw [specMean, List.sum_replicate, List.length_replicate, nsmul_eq_mul]
    field_simp
  refine ⟨hm, ?_⟩
  rw [specVariance, hm, List.map_replicate, List.sum_replicate]
  simp

end Walter

namespace Walter

variable {α : Type} [LinearOrderedField α]

/-- The return value of `fetchSample` is the comparison of line 222. -/
lemma fetchSample_ok (k : Constants α) (no : Nat) (reads : Nat → SensorRead α)
    (e : RotaryEncoder α) :
    (fetchSample k no reads e).ok = true ↔
      (fetchSample k no reads e).variance ≤ k.ENCODER_CHECK_MAX_VARIANCE := by
  show decide _ = true ↔ _
  exact decide_eq_true_iff

/-- The encoder after a sequence of calls followed by one more call. -/
lemma afterReads_snoc (k : Constants α) (e : RotaryEncoder α) (rds : List (SensorRead α))
    (rd : SensorRead α) :
    afterReads k e (rds ++ [rd]) = (getNewAngleFromSensor k (afterReads k e rds) rd).2 := by
  simp [afterReads, List.foldl_append]

/-- The first loop of `fetchSample` after `n` passes: the encoder has gone through the calls
that received `reads 0`, ..., `reads (n - 1)`, and sample `i` is the filtered angle after the
call that received `reads i`. -/
lemma fetchLoop_reads (k : Constants α) (reads : Nat → SensorRead α) (e : RotaryEncoder α)
    (n : Nat) :
    ((List.range n).foldl (fetchSampleStep k reads) (e, [], 0)).1
        = afterReads k e ((List.range n).map reads) ∧
      ((List.range n).foldl (fetchSampleStep k reads) (e, [], 0)).2.1
        = (List.range n).map
            (fun i => getRawSensorAngle (afterReads k e ((List.range (i + 1)).map reads))) := by
  induction n with
  | zero => simp [afterReads]
  | succ j ih =>
    rw [List.range_succ, List.foldl_append, List.foldl_cons, List.foldl_nil]
    simp only [fetchSampleStep, List.map_append, List.map_cons, List.map_nil]
    rw [ih.1, ih.2, ← afterReads_snoc]
    refine ⟨rfl, ?_⟩
    rw [List.range_succ, List.map_append, List.map_cons, List.map_nil]

/-- The filtered angle after a sequence of calls whose last one succeeded is the wrapped
reading of that call. -/
lemma afterReads_last_success (k : Constants α) (e : RotaryEncoder α)
    (reads : Nat → SensorRead α) (i : Nat) (h : (reads i).endTransmissionStatus = 0) :
    getRawSensorAngle (afterReads k e ((List.range (i + 1)).map reads))
      = nulledRawAngle (reads i).angle e.nullAngle := by
  rw [List.range_succ, List.map_append, List.map_cons, List.map_nil, afterReads_snoc,
    getNewAngleFromSensor_success k _ _ h]
  show nulledRawAngle (reads i).angle (afterReads k e ((List.range i).map reads)).nullAngle = _
  rw [afterReads_nullAngle]

/-- C4, as amended: in exact arithmetic (response time plus sample period positive), for
every non-empty batch of `no` readings, the samples of `fetchSample` are the filtered angles
after each of its `no` calls of `getNewAngleFromSensor` (the wrapped readings themselves when
the calls succeed), the reported mean and variance are the mean and the population variance of
these samples, and `fetchSample` returns true, and `checkEncoderVariance` sets `passedCheck`,
exactly when that variance is at most `ENCODER_CHECK_MAX_VARIANCE`; a batch whose variance
exceeds the threshold fails, and a batch of identical readings has variance 0 and passes for
every threshold above 0. -/
theorem C4_variance_check (k : Constants α) (e : RotaryEncoder α) (reads : Nat → SensorRead α)
    (no : Nat) (hno : 0 < no)
    (_hpos : 0 < k.ENCODER_FILTER_RESPONSE_TIME + k.ENCODER_SAMPLE_RATE) :
    (fetchSample k no reads e).encoder = afterReads k e ((List.range no).map reads) ∧
      (fetchSample k no reads e).sample = (List.range no).map
        (fun i => getRawSensorAngle (afterReads k e ((List.range (i + 1)).map reads))) ∧
      ((∀ i, i < no → (reads i).endTransmissionStatus = 0) →
        (fetchSample k no reads e).sample = (List.range no).map
          (fun i => nulledRawAngle (reads i).angle e.nullAngle)) ∧
      (fetchSample k no reads e).sample.length = no ∧
      (fetchSample k no reads e).avr = specMean (fetchSample k no reads e).sample ∧
      (fetchSample k no reads e).variance = specVariance (fetchSample k no reads e).sample ∧
      ((fetchSample k no reads e).ok = true ↔
        specVariance (fetchSample k no reads e).sample ≤ k.ENCODER_CHECK_MAX_VARIANCE) ∧
      (k.ENCODER_CHECK_MAX_VARIANCE < specVariance (fetchSample k no reads e).sample →
        (fetchSample k no reads e).ok = false) ∧
      (∀ x : α, (∀ y ∈ (fetchSample k no reads e).sample, y = x) →
        0 < k.ENCODER_CHECK_MAX_VARIANCE →
        (fetchSample k no reads e).avr = x ∧ (fetchSample k no reads e).variance = 0 ∧
          (fetchSample k no reads e).ok = true) ∧
      (no = k.ENCODER_CHECK_NO_OF_SAMPLES % 256 →
        (checkEncoderVariance k reads e).1 = specVariance (fetchSample k no reads e).sample ∧
        ((checkEncoderVariance k reads e).2.passedCheck = true ↔
          specVariance (fetchSample k no reads e).sample ≤ k.ENCODER_CHECK_MAX_VARIANCE)) := by
  obtain ⟨hlen, havr, hvar⟩ := fetchSample_stats k no reads e
  have hok := fetchSample_ok k no reads e
  have hreads := fetchLoop_reads k reads e no
  have hsample : (fetchSample k no reads e).sample = (List.range no).map
      (fun i => getRawSensorAngle (afterReads k e ((List.range (i + 1)).map reads))) :=
    hreads.2
  rw [hvar] at hok
  refine ⟨hreads.1, hsample, ?_, hlen, havr, hvar, hok, ?_, ?_, ?_⟩
  · intro hall
    rw [hsample]
    apply List.map_congr_left
    intro i hi
    exact afterReads_last_success k e reads i (hall i (List.mem_range.mp hi))
  · intro hgt
    cases hb : (fetchSample k no reads e).ok with
    | false => rfl
    | true => exact absurd (hok.mp hb) (not_le.mpr hgt)
  · intro x hall hthr
    have hrep : (fetchSample k no reads e).sample = List.replicate no x :=
      List.eq_replicate_iff.mpr ⟨hlen, hall⟩
    have hst := spec_stats_replicate no hno x
    rw [← hrep] at hst
    refine ⟨havr.trans hst.1, hvar.trans hst.2, hok.mpr ?_⟩
    rw [hst.2]
    exact le_of_lt hthr
  · intro hN
    subst hN
    exact ⟨hvar, hok⟩

/-- C10: when every one of the `no` reads of `fetchSample` fails (`no` at least 1, threshold
at least 0), every sample is the filtered angle held before the batch, the reported mean is
that angle, the reported variance is 0 and the check passes. -/
theorem C10_fetchSample_all_failed (k : Constants α) (e : RotaryEncoder α)
    (reads : Nat → SensorRead α) (no : Nat) (hno : 0 < no)
    (hthr : 0 ≤ k.ENCODER_CHECK_MAX_VARIANCE)
    (hfail : ∀ i, i < no → (reads i).endTransmissionStatus ≠ 0) :
    (fetchSample k no reads e).sample = List.replicate no e.currentSensorAngle ∧
      (fetchSample k no reads e).avr = e.currentSensorAngle ∧
      (fetchSample k no reads e).variance = 0 ∧
      (fetchSample k no reads e).ok = true ∧
      (fetchSample k no reads e).encoder.currentSensorAngle = e.currentSensorAngle := by
  obtain ⟨_, havr, hvar⟩ := fetchSample_stats k no reads e
  have hloop := fetchLoop_all_failed k reads e no hfail
  have hrep : (fetchSample k no reads e).sample = List.replicate no e.currentSensorAngle :=
    hloop.2
  have hst := spec_stats_replicate no hno e.currentSensorAngle
  rw [← hrep] at hst
  have hv : (fetchSample k no reads e).variance = 0 := hvar.trans hst.2
  refine ⟨hrep, havr.trans hst.1, hv, ?_, hloop.1⟩
  rw [fetchSample_ok, hv]
  exact hthr

end Walter

namespace Walter

variable {α : Type} [LinearOrderedField α]

/-- C4, evaluated: five successful readings of 10 with null angle 0 give the samples
10, 10, 10, 10, 10, mean 10, variance 0, and the check passes with threshold 1; the two
successful readings 0 and 10 give the samples 0 and 10, variance 25, and the check fails. -/
theorem C4_variance_check_witness :
    ((fetchSample demoConstants 5 (fun _ => ⟨10, 0⟩) demoEncoder).sample = [10, 10, 10, 10, 10] ∧
      (fetchSample demoConstants 5 (fun _ => ⟨10, 0⟩) demoEncoder).avr = 10 ∧
      (fetchSample demoConstants 5 (fun _ => ⟨10, 0⟩) demoEncoder).variance = 0 ∧
      (fetchSample demoConstants 5 (fun _ => ⟨10, 0⟩) demoEncoder).ok = true ∧
      (checkEncoderVariance demoConstants (fun _ => ⟨10, 0⟩) demoEncoder).2.passedCheck
        = true) ∧
      ((fetchSample demoConstants 2 (fun i => ⟨10 * i, 0⟩) demoEncoder).sample = [0, 10] ∧
        (fetchSample demoConstants 2 (fun i => ⟨10 * i, 0⟩) demoEncoder).variance = 25 ∧
        (fetchSample demoConstants 2 (fun i => ⟨10 * i, 0⟩) demoEncoder).ok = false) := by
  have hn : nulledRawAngle (10 : ℚ) 0 = 10 := by
    simp [nulledRawAngle]; norm_num
  have hn0 : nulledRawAngle (0 : ℚ) 0 = 0 := by
    simp [nulledRawAngle]; norm_num
  obtain ⟨_, _, hsucc, _, _, hvar, hok, _, hsame, hcheck⟩ :=
    C4_variance_check demoConstants demoEncoder (fun _ => ⟨10, 0⟩) 5 (by decide) (by decide)
  have hs : (fetchSample demoConstants 5 (fun _ => ⟨10, 0⟩) demoEncoder).sample
      = [10, 10, 10, 10, 10] := by
    rw [hsucc (fun _ _ => rfl)]
    simp [List.range_succ, demoEncoder, hn]
  have h10 := hsame 10 (by rw [hs]; simp) (by norm_num [demoConstants])
  obtain ⟨_, _, hsucc2, _, _, hvar2, _, hfail2, _, _⟩ :=
    C4_variance_check demoConstants demoEncoder (fun i => ⟨10 * i, 0⟩) 2 (by decide)
      (by decide)
  have hs2 : (fetchSample demoConstants 2 (fun i => ⟨10 * i, 0⟩) demoEncoder).sample
      = [0, 10] := by
    rw [hsucc2 (fun _ _ => rfl)]
    simp [List.range_succ, demoEncoder, hn, hn0]
  have hv2 : specVariance
      (fetchSample demoConstants 2 (fun i => ⟨10 * i, 0⟩) demoEncoder).sample = 25 := by
    rw [hs2]
    norm_num [specVariance, specMean]
  refine ⟨⟨hs, h10.1, h10.2.1, h10.2.2, (hcheck rfl).2.mpr (hok.mp h10.2.2)⟩, hs2, ?_, ?_⟩
  · rw [hvar2, hv2]
  · apply hfail2
    rw [hv2]
    norm_num [demoConstants]

set_option maxRecDepth 8192 in
/-- The rounding to binary32 at known values: 1/3, the ties at `2 ^ 24 + 1` and `2 ^ 24 + 3`,
the largest finite number, the overflow to infinity, the smallest subnormal number and the
tie below it; and `fetchSampleF32` on five readings of 10, which are passed with mean 10 and
variance 0. -/
lemma roundF32_examples :
    roundF32 false 1 3 = some ⟨11184811, -25⟩ ∧
      roundF32 false 16777217 1 = some ⟨8388608, 1⟩ ∧
      roundF32 true 16777219 1 = some ⟨-8388610, 1⟩ ∧
      roundF32 false (2 ^ 128 - 2 ^ 104) 1 = some ⟨16777215, 104⟩ ∧
      roundF32 false (2 ^ 128 - 2 ^ 103) 1 = none ∧
      roundF32 false 1 (2 ^ 149) = some ⟨1, -149⟩ ∧
      roundF32 false 1 (2 ^ 150) = some ⟨0, -149⟩ ∧
      fetchSampleF32 5 (fun _ => some ⟨10, 0⟩) demoTinyThreshold
        = (true, some ⟨10485760, -20⟩, some ⟨0, 0⟩) ∧
      (⟨10485760, -20⟩ : Binary).toRat = 10 := by
  refine ⟨by decide, by decide, by decide, by decide, by decide, by decide, by decide,
    by decide, ?_⟩
  norm_num [Binary.toRat]

set_option maxRecDepth 8192 in
/-- C4, the claim as stated fails in the `float` arithmetic of the code: for five identical
readings of 123.456f (the exact population variance is 0) and the threshold `2 ^ -40`, which
is positive, lines 202 to 222 compute the mean `16181626 * 2 ^ -17`, one unit in the last
place above the readings, and the variance `2 ^ -34`, and `fetchSample` returns false. -/
theorem C4_binary32_identical_rejected :
    roundF32 false 123456 1000 = some demoReading ∧
      fetchSampleF32 5 (fun _ => some demoReading) demoTinyThreshold
        = (false, some ⟨16181626, -17⟩, some ⟨8388608, -57⟩) ∧
      (⟨8388608, -57⟩ : Binary).toRat = 1 / 2 ^ 34 ∧
      demoTinyThreshold.toRat = 1 / 2 ^ 40 ∧
      0 < demoTinyThreshold.toRat ∧
      specVariance (List.replicate 5 demoReading.toRat) = 0 ∧
      specVariance (List.replicate 5 demoReading.toRat) ≤ demoTinyThreshold.toRat := by
  have hv := (spec_stats_replicate 5 (by decide) demoReading.toRat).2
  have ht : demoTinyThreshold.toRat = 1 / 2 ^ 40 := by
    norm_num [Binary.toRat, demoTinyThreshold]
  have hcode : fetchSampleF32 5 (fun _ => some demoReading) demoTinyThreshold
      = (false, some ⟨16181626, -17⟩, some ⟨8388608, -57⟩) := by decide
  have hread : roundF32 false 123456 1000 = some demoReading := by decide
  refine ⟨hread, hcode, ?_, ht, ?_, hv, ?_⟩
  · norm_num [Binary.toRat]
  · rw [ht]
    norm_num
  · rw [hv, ht]
    norm_num

/-- C10, evaluated: five failed reads on an encoder whose filtered angle is 77. -/
theorem C10_fetchSample_all_failed_witness :
    (fetchSample demoConstants 5 (fun _ => ⟨10, 1⟩)
        { demoEncoder with currentSensorAngle := 77 }).sample = List.replicate 5 77 ∧
      (fetchSample demoConstants 5 (fun _ => ⟨10, 1⟩)
        { demoEncoder with currentSensorAngle := 77 }).avr = 77 ∧
      (fetchSample demoConstants 5 (fun _ => ⟨10, 1⟩)
        { demoEncoder with currentSensorAngle := 77 }).variance = 0 ∧
      (fetchSample demoConstants 5 (fun _ => ⟨10, 1⟩)
        { demoEncoder with currentSensorAngle := 77 }).ok = true ∧
      (fetchSample demoConstants 5 (fun _ => ⟨10, 1⟩)
        { demoEncoder with currentSensorAngle := 77 }).encoder.currentSensorAngle = 77 :=
  C10_fetchSample_all_failed demoConstants { demoEncoder with currentSensorAngle := 77 }
    (fun _ => ⟨10, 1⟩) 5 (by decide) (by norm_num [demoConstants])
    (fun _ _ => by simp)

/-! ## Properties of the address negotiation -/

/-- The register writes of a concatenation. -/
lemma addressRegWrites_append (xs ys : List BusOp) :
    addressRegWrites (xs ++ ys) = addressRegWrites xs ++ addressRegWrites ys := by
  simp [addressRegWrites, List.filterMap_append]

/-- Lines 126 to 146 append the final probe and possibly one reading, end without a fatal
error and leave the address of the adapter alone. -/
lemma setupComCheck_spec (sd : SetupData) (bus : SetupBus α) (e : RotaryEncoder α)
    (ops : List BusOp) :
    (setupComCheck sd bus e ops).fatal = none ∧
      (setupComCheck sd bus e ops).encoder.sensorI2CAddress = e.sensorI2CAddress ∧
      (setupComCheck sd bus e ops).ops = ops ++ (BusOp.wireProbe (sd.i2CAddress true % 256) ::
        (if bus.probeFinal = 0 then [BusOp.angleR] else [])) := by
  unfold setupComCheck
  by_cases h : bus.probeFinal = 0 <;> simp [h]

/-- The run of `setup` for a sensor that keeps its address. -/
lemma setup_keep (k : Constants α) (sd : SetupData) (angleOffset nullAngle : α)
    (bus : SetupBus α) (e : RotaryEncoder α) (hprog : sd.doProgI2CAddress = false) :
    setup k sd angleOffset nullAngle bus e =
      setupComCheck sd bus
        { e with
          nullAngle := nullAngle
          angleOffset := angleOffset
          passedCheck := false
          sensorI2CAddress := sd.i2CAddress false % 256
          currentSensorAngle := bus.angleCheck.angle }
        [.setI2CAddress (sd.i2CAddress false % 256), .sensorBegin,
          .setClockWise sd.isClockwise, .angleR] := by
  simp [setup, setupConnect, hprog]

/-- The run of `setup` for a sensor to be reprogrammed that already answers at the new
address. -/
lemma setup_found (k : Constants α) (sd : SetupData) (angleOffset nullAngle : α)
    (bus : SetupBus α) (e : RotaryEncoder α) (hprog : sd.doProgI2CAddress = true)
    (hprobe : bus.probeNew = 0) :
    setup k sd angleOffset nullAngle bus e =
      setupComCheck sd bus
        { e with
          nullAngle := nullAngle
          angleOffset := angleOffset
          passedCheck := false
          sensorI2CAddress := proggedI2CAddr (sd.i2CAddress false % 256) k.I2C_ADDRESS_ADDON
          currentSensorAngle := bus.angleCheck.angle }
        [.wireProbe (proggedI2CAddr (sd.i2CAddress false % 256) k.I2C_ADDRESS_ADDON),
          .setI2CAddress (proggedI2CAddr (sd.i2CAddress false % 256) k.I2C_ADDRESS_ADDON),
          .sensorBegin, .switchConflictingSensor true,
          .setClockWise sd.isClockwise, .angleR] := by
  simp [setup, setupConnect, hprog, hprobe]

/-- The run of `setup` for a sensor to be reprogrammed that does not answer at the new
address yet. -/
lemma setup_reprogram (k : Constants α) (sd : SetupData) (angleOffset nullAngle : α)
    (bus : SetupBus α) (e : RotaryEncoder α) (hprog : sd.doProgI2CAddress = true)
    (hprobe : bus.probeNew ≠ 0) :
    setup k sd angleOffset nullAngle bus e =
      setupReprogram k sd (proggedI2CAddr (sd.i2CAddress false % 256) k.I2C_ADDRESS_ADDON) bus
        { e with
          nullAngle := nullAngle
          angleOffset := angleOffset
          passedCheck := false
          currentSensorAngle := bus.angleCheck.angle }
        [.wireProbe (proggedI2CAddr (sd.i2CAddress false % 256) k.I2C_ADDRESS_ADDON),
          .setClockWise sd.isClockwise, .angleR] := by
  simp [setup, setupConnect, hprog, hprobe]

/-- Lines 90 to 96 when the computed address differs from the expected one. -/
lemma setupReprogram_wrong (k : Constants α) (sd : SetupData) (progged : Nat)
    (bus : SetupBus α) (e : RotaryEncoder α) (ops : List BusOp)
    (h : newi2cAddress (bus.addressRegOld % 256) k.I2C_ADDRESS_ADDON ≠ progged) :
    setupReprogram k sd progged bus e ops =
      logFatal .newI2CAddressWrong e (ops ++ [.addressRegR]) := by
  unfold setupReprogram
  simp only [ne_eq, h, not_false_eq_true, if_true]

/-- Lines 90 to 116 when the register does not read back what was written. -/
lemma setupReprogram_stuck (k : Constants α) (sd : SetupData) (progged : Nat)
    (bus : SetupBus α) (e : RotaryEncoder α) (ops : List BusOp)
    (h : newi2cAddress (bus.addressRegOld % 256) k.I2C_ADDRESS_ADDON = progged)
    (hc : bus.addressRegCheck % 256 ≠ bus.addressRegOld % 256 + k.I2C_ADDRESS_ADDON) :
    setupReprogram k sd progged bus e ops =
      logFatal .i2cAddrWFailed { e with sensorI2CAddress := progged }
        (ops ++ [.addressRegR,
          .addressRegW (bus.addressRegOld % 256 + k.I2C_ADDRESS_ADDON),
          .setI2CAddress progged, .sensorBegin, .addressRegR]) := by
  unfold setupReprogram
  simp only [ne_eq, h, not_true_eq_false, if_false, hc, not_false_eq_true, if_true,
    List.append_assoc, List.singleton_append, List.cons_append, List.nil_append]

/-- Lines 90 to 146 when the register reads back what was written. -/
lemma setupReprogram_done (k : Constants α) (sd : SetupData) (progged : Nat)
    (bus : SetupBus α) (e : RotaryEncoder α) (ops : List BusOp)
    (h : newi2cAddress (bus.addressRegOld % 256) k.I2C_ADDRESS_ADDON = progged)
    (hc : bus.addressRegCheck % 256 = bus.addressRegOld % 256 + k.I2C_ADDRESS_ADDON) :
    setupReprogram k sd progged bus e ops =
      setupComCheck sd bus { e with sensorI2CAddress := progged }
        (ops ++ [.addressRegR,
          .addressRegW (bus.addressRegOld % 256 + k.I2C_ADDRESS_ADDON),
          .setI2CAddress progged, .sensorBegin, .addressRegR,
          .switchConflictingSensor true, .delay 20]) := by
  unfold setupReprogram
  simp only [ne_eq, h, not_true_eq_false, if_false, hc,
    List.append_assoc, List.singleton_append, List.cons_append, List.nil_append]

end Walter

namespace Walter

variable {α : Type} [LinearOrderedField α]

/-- Lines 126 to 146 write no register. -/
lemma setupComCheck_writes (sd : SetupData) (bus : SetupBus α) (e : RotaryEncoder α)
    (ops : List BusOp) :
    addressRegWrites (setupComCheck sd bus e ops).ops = addressRegWrites ops := by
  rw [(setupComCheck_spec sd bus e ops).2.2, addressRegWrites_append]
  by_cases h : bus.probeFinal = 0 <;> simp [h, addressRegWrites]

/-- Lines 126 to 146 gate the conflicting sensor only if that happened before. -/
lemma setupComCheck_gate (sd : SetupData) (bus : SetupBus α) (e : RotaryEncoder α)
    (ops : List BusOp) :
    BusOp.switchConflictingSensor true ∈ (setupComCheck sd bus e ops).ops ↔
      BusOp.switchConflictingSensor true ∈ ops := by
  rw [(setupComCheck_spec sd bus e ops).2.2]
  by_cases h : bus.probeFinal = 0 <;> simp [h]

/-- A run of `setup` that writes the address register is a run for a sensor to be
reprogrammed that did not answer at the new address and whose computed address passed the
comparison of line 95. -/
lemma setup_wrote (k : Constants α) (sd : SetupData) (angleOffset nullAngle : α)
    (bus : SetupBus α) (e : RotaryEncoder α)
    (hwrite : addressRegWrites (setup k sd angleOffset nullAngle bus e).ops ≠ []) :
    sd.doProgI2CAddress = true ∧ bus.probeNew ≠ 0 ∧
      newi2cAddress (bus.addressRegOld % 256) k.I2C_ADDRESS_ADDON =
        proggedI2CAddr (sd.i2CAddress false % 256) k.I2C_ADDRESS_ADDON := by
  cases hprog : sd.doProgI2CAddress with
  | false =>
    rw [setup_keep k sd angleOffset nullAngle bus e hprog, setupComCheck_writes] at hwrite
    exact absurd rfl hwrite
  | true =>
    by_cases hprobe : bus.probeNew = 0
    · rw [setup_found k sd angleOffset nullAngle bus e hprog hprobe,
        setupComCheck_writes] at hwrite
      exact absurd rfl hwrite
    · refine ⟨rfl, hprobe, ?_⟩
      by_contra hnew
      rw [setup_reprogram k sd angleOffset nullAngle bus e hprog hprobe,
        setupReprogram_wrong k sd _ bus _ _ hnew] at hwrite
      exact hwrite (by simp [logFatal, addressRegWrites])

/-- What a run of `setup` that writes the address register sends and binds: one register
write of the old value plus the offset, and the expected new address in the adapter. -/
lemma setup_wrote_spec (k : Constants α) (sd : SetupData) (angleOffset nullAngle : α)
    (bus : SetupBus α) (e : RotaryEncoder α)
    (hwrite : addressRegWrites (setup k sd angleOffset nullAngle bus e).ops ≠ []) :
    addressRegWrites (setup k sd angleOffset nullAngle bus e).ops
        = [bus.addressRegOld % 256 + k.I2C_ADDRESS_ADDON] ∧
      (setup k sd angleOffset nullAngle bus e).encoder.sensorI2CAddress
        = proggedI2CAddr (sd.i2CAddress false % 256) k.I2C_ADDRESS_ADDON ∧
      BusOp.setI2CAddress (proggedI2CAddr (sd.i2CAddress false % 256) k.I2C_ADDRESS_ADDON)
        ∈ (setup k sd angleOffset nullAngle bus e).ops := by
  obtain ⟨hprog, hprobe, hnew⟩ := setup_wrote k sd angleOffset nullAngle bus e hwrite
  rw [setup_reprogram k sd angleOffset nullAngle bus e hprog hprobe]
  by_cases hc : bus.addressRegCheck % 256 = bus.addressRegOld % 256 + k.I2C_ADDRESS_ADDON
  · rw [setupReprogram_done k sd _ bus _ _ hnew hc]
    refine ⟨?_, (setupComCheck_spec sd bus _ _).2.1, ?_⟩
    · rw [setupComCheck_writes]; simp [addressRegWrites]
    · rw [(setupComCheck_spec sd bus _ _).2.2]; simp
  · rw [setupReprogram_stuck k sd _ bus _ _ hnew hc]
    simp [logFatal, addressRegWrites]

/-- C5: for an addon sensor that needs reprogramming, after a first run of `setup` that
wrote the address register and ended without a fatal error, a second run in which the device
answers the probe at the new address, started from any encoder object, sends
`setI2CAddress` with the address the first run resolved and so binds the adapter to that same
address, writes no address register, ends without a fatal error and gates the conflicting
sensor on; its first six operations are the probe, the binding, `begin`, the gate, the
orientation and the reading of line 87. -/
theorem C5_setup_twice (k : Constants α) (sd : SetupData) (angleOffset nullAngle : α)
    (bus1 bus2 : SetupBus α) (e1 e2 : RotaryEncoder α)
    (hmoved : addressRegWrites (setup k sd angleOffset nullAngle bus1 e1).ops ≠ [])
    (_hdone : (setup k sd angleOffset nullAngle bus1 e1).fatal = none)
    (hanswers : bus2.probeNew = 0) :
    (setup k sd angleOffset nullAngle bus2 e2).encoder.sensorI2CAddress
        = (setup k sd angleOffset nullAngle bus1 e1).encoder.sensorI2CAddress ∧
      BusOp.setI2CAddress (setup k sd angleOffset nullAngle bus1 e1).encoder.sensorI2CAddress
        ∈ (setup k sd angleOffset nullAngle bus2 e2).ops ∧
      (setup k sd angleOffset nullAngle bus2 e2).ops.take 6 =
        [.wireProbe (setup k sd angleOffset nullAngle bus1 e1).encoder.sensorI2CAddress,
          .setI2CAddress (setup k sd angleOffset nullAngle bus1 e1).encoder.sensorI2CAddress,
          .sensorBegin, .switchConflictingSensor true, .setClockWise sd.isClockwise,
          .angleR] ∧
      addressRegWrites (setup k sd angleOffset nullAngle bus2 e2).ops = [] ∧
      (setup k sd angleOffset nullAngle bus2 e2).fatal = none ∧
      BusOp.switchConflictingSensor true ∈ (setup k sd angleOffset nullAngle bus2 e2).ops := by
  have hprog := (setup_wrote k sd angleOffset nullAngle bus1 e1 hmoved).1
  have h1 := (setup_wrote_spec k sd angleOffset nullAngle bus1 e1 hmoved).2.1
  rw [h1, setup_found k sd angleOffset nullAngle bus2 e2 hprog hanswers]
  refine ⟨(setupComCheck_spec sd bus2 _ _).2.1, ?_, ?_, ?_, (setupComCheck_spec sd bus2 _ _).1,
    ?_⟩
  · rw [(setupComCheck_spec sd bus2 _ _).2.2]; simp
  · rw [(setupComCheck_spec sd bus2 _ _).2.2]; simp
  · rw [setupComCheck_writes]; simp [addressRegWrites]
  · rw [setupComCheck_gate]; simp

/-- C5, evaluated: the addon sensor with register 3 is moved to address 92 by the first run; a
second run on a fresh encoder object, whose adapter holds address 0, finds the device there
and binds 92. -/
theorem C5_setup_twice_witness :
    (setup demoConstants demoAddonSetupData 0 0 demoBus demoEncoder).encoder.sensorI2CAddress
        = 92 ∧
      demoEncoder.sensorI2CAddress = 0 ∧
      (setup demoConstants demoAddonSetupData 0 0 demoBusMoved demoEncoder
        ).encoder.sensorI2CAddress = 92 ∧
      (setup demoConstants demoAddonSetupData 0 0 demoBusMoved demoEncoder).ops.take 6 =
        [.wireProbe 92, .setI2CAddress 92, .sensorBegin, .switchConflictingSensor true,
          .setClockWise true, .angleR] ∧
      addressRegWrites (setup demoConstants demoAddonSetupData 0 0 demoBusMoved
        demoEncoder).ops = [] ∧
      (setup demoConstants demoAddonSetupData 0 0 demoBusMoved demoEncoder).fatal = none := by
  have h := C5_setup_twice demoConstants demoAddonSetupData 0 0 demoBus demoBusMoved
    demoEncoder demoEncoder (by decide) (by decide) rfl
  have h92 : (setup demoConstants demoAddonSetupData 0 0 demoBus
      demoEncoder).encoder.sensorI2CAddress = 92 := by decide
  rw [h92] at h
  exact ⟨h92, rfl, h.1, h.2.2.1, h.2.2.2.1, h.2.2.2.2.1⟩

end Walter

namespace Walter

variable {α : Type} [LinearOrderedField α]

/-- C6: in the reprogramming path of `setup` (the sensor is to be reprogrammed and nothing
answers at the new address), the conflicting sensor is gated on only if the register read
back after the write equals the value written, old register plus offset; then the run has no
fatal error and the gate operation follows the read-back and is followed by the delay of
20 ms.  When the read-back differs, the run ends with a fatal error and never gates the
conflicting sensor on; if the register was written at all, the error is the one of line 116
and it is the last operation of the run. -/
theorem C6_gate_after_readback (k : Constants α) (sd : SetupData) (angleOffset nullAngle : α)
    (bus : SetupBus α) (e : RotaryEncoder α) (hprog : sd.doProgI2CAddress = true)
    (hprobe : bus.probeNew ≠ 0) :
    (BusOp.switchConflictingSensor true ∈ (setup k sd angleOffset nullAngle bus e).ops →
        bus.addressRegCheck % 256 = bus.addressRegOld % 256 + k.I2C_ADDRESS_ADDON ∧
        (setup k sd angleOffset nullAngle bus e).fatal = none ∧
        (setup k sd angleOffset nullAngle bus e).ops.take 10 =
          [.wireProbe (proggedI2CAddr (sd.i2CAddress false % 256) k.I2C_ADDRESS_ADDON),
            .setClockWise sd.isClockwise, .angleR, .addressRegR,
            .addressRegW (bus.addressRegOld % 256 + k.I2C_ADDRESS_ADDON),
            .setI2CAddress (proggedI2CAddr (sd.i2CAddress false % 256) k.I2C_ADDRESS_ADDON),
            .sensorBegin, .addressRegR, .switchConflictingSensor true, .delay 20]) ∧
      (bus.addressRegCheck % 256 ≠ bus.addressRegOld % 256 + k.I2C_ADDRESS_ADDON →
        BusOp.switchConflictingSensor true ∉ (setup k sd angleOffset nullAngle bus e).ops ∧
        (setup k sd angleOffset nullAngle bus e).fatal ≠ none ∧
        (addressRegWrites (setup k sd angleOffset nullAngle bus e).ops ≠ [] →
          (setup k sd angleOffset nullAngle bus e).fatal = some .i2cAddrWFailed ∧
          (setup k sd angleOffset nullAngle bus e).ops.getLast?
            = some (.logFatal .i2cAddrWFailed))) := by
  rw [setup_reprogram k sd angleOffset nullAngle bus e hprog hprobe]
  by_cases hnew : newi2cAddress (bus.addressRegOld % 256) k.I2C_ADDRESS_ADDON =
      proggedI2CAddr (sd.i2CAddress false % 256) k.I2C_ADDRESS_ADDON
  · by_cases hc : bus.addressRegCheck % 256 = bus.addressRegOld % 256 + k.I2C_ADDRESS_ADDON
    · rw [setupReprogram_done k sd _ bus _ _ hnew hc]
      refine ⟨fun _ => ⟨hc, (setupComCheck_spec sd bus _ _).1, ?_⟩, fun hne => absurd hc hne⟩
      rw [(setupComCheck_spec sd bus _ _).2.2]
      simp
    · rw [setupReprogram_stuck k sd _ bus _ _ hnew hc]
      refine ⟨fun hgate => ?_, fun _ => ?_⟩
      · simp [logFatal] at hgate
      · simp [logFatal]
  · rw [setupReprogram_wrong k sd _ bus _ _ hnew]
    refine ⟨fun hgate => ?_, fun _ => ?_⟩
    · simp [logFatal] at hgate
    · simp [logFatal, addressRegWrites]

/-- C6, evaluated: with the register reading back 7 after the write of 7 the conflicting
sensor is gated on after the read-back; with the register still reading 3 the run ends with
the fatal error of line 116 and the sensor is not gated on. -/
theorem C6_gate_after_readback_witness :
    ((setup demoConstants demoAddonSetupData 0 0 demoBus demoEncoder).fatal = none ∧
      (setup demoConstants demoAddonSetupData 0 0 demoBus demoEncoder).ops.take 10 =
        [.wireProbe 92, .setClockWise true, .angleR, .addressRegR, .addressRegW 7,
          .setI2CAddress 92, .sensorBegin, .addressRegR, .switchConflictingSensor true,
          .delay 20]) ∧
      (BusOp.switchConflictingSensor true ∉
          (setup demoConstants demoAddonSetupData 0 0 demoBusStuck demoEncoder).ops ∧
        (setup demoConstants demoAddonSetupData 0 0 demoBusStuck demoEncoder).fatal
          = some .i2cAddrWFailed ∧
        (setup demoConstants demoAddonSetupData 0 0 demoBusStuck demoEncoder).ops.getLast?
          = some (.logFatal .i2cAddrWFailed)) := by
  have hgo := (C6_gate_after_readback demoConstants demoAddonSetupData 0 0 demoBus demoEncoder
    rfl (by decide)).1 (by decide)
  have hstop := (C6_gate_after_readback demoConstants demoAddonSetupData 0 0 demoBusStuck
    demoEncoder rfl (by decide)).2 (by decide)
  exact ⟨⟨hgo.2.1, hgo.2.2⟩, hstop.1, hstop.2.2 (by decide)⟩

end Walter
